import Mathlib

/-!
# Verification of the gtfs_rt_rater aggregation and extraction core

Shallow embedding of the Rust sources of `gtfs_rt_rater`:

* `src/analyzers/grade.rs` — the letter-grading function;
* `src/analyzers/utility.rs` — mean and population standard deviation;
* `src/analyzers/aggregate.rs` — `aggregate_feed`, the per-window aggregation;
* `src/stats.rs` — `FeedStats::from_feed`, the field-completeness extractor;
* `src/analyzers/analyzer.rs` — `analyze_for_date`, the per-date publish cycle.

Modelling conventions:

* Rust `f64` arithmetic is embedded as exact rational arithmetic (`ℚ`).  The
  quantities computed by the aggregator (fractions of counts, means of
  fractions, weighted sums) are rational-valued; float rounding is out of
  scope.  For the grading function, which the code may call on arbitrary
  `f64` values, the carrier `F` below additionally models the NaN value and
  the IEEE comparison rule that every `>=` comparison against NaN is false.
* `usize` counts are `ℕ`; timestamps (`DateTime<Utc>`) are `ℤ` minute
  counts, so the difference of two timestamps is already in minutes.
* Rust `HashMap` values keyed by the fixed set of 18 field-name strings are
  embedded as functions out of the 18-element enumeration `Field`.
* The square root in `stddev` (utility.rs line 17) leaves ℚ, so the
  embedding carries the population *variance* (the square of the value the
  code stores); the square root is strictly monotone on nonnegatives, so
  every claim about which series the standard deviation is taken over, and
  every equality of standard deviations, corresponds exactly to the same
  statement about the variance.
-/

/-! ## Definitions -/

namespace Analyzers

/-- A value of Rust type `f64`, restricted to what the grading code can
observe: either NaN or a (rational) numeric value. -/
inductive F where
  | nan : F
  | val : ℚ → F
deriving DecidableEq

/-- IEEE `>=` on `F`: any comparison involving NaN is false. -/
def F.ge : F → F → Bool
  | F.val a, F.val b => decide (b ≤ a)
  | _, _ => false

/-- Embedding of `grade` (grade.rs lines 11–20): the Rust match guards
`p if p >= c` become successive `F.ge` tests. -/
def grade (p : F) : String :=
  if F.ge p (F.val (95/100)) then "A+"
  else if F.ge p (F.val (90/100)) then "A"
  else if F.ge p (F.val (80/100)) then "B"
  else if F.ge p (F.val (65/100)) then "C"
  else if F.ge p (F.val (40/100)) then "D"
  else "F"

/-- Embedding of `mean` (utility.rs lines 2–7). -/
def mean (values : List ℚ) : ℚ :=
  if values = [] then 0 else values.sum / values.length

/-- Embedding of `stddev` (utility.rs lines 11–18) up to the final square
root: this is the `variance` local variable, i.e. the square of the value
the Rust function returns. -/
def stddevSq (values : List ℚ) (m : ℚ) : ℚ :=
  if values = [] then 0
  else (values.map (fun v => (v - m) ^ 2)).sum / values.length

/-- Embedding of the analyzer-side row type `FeedStats`
(analyzers/types.rs lines 8–34): one row deserialized from a per-feed CSV. -/
structure FeedStats where
  timestamp : ℤ
  vehicles : ℕ
  error_type : Option String
  with_trip_id : ℕ
  with_route_id : ℕ
  with_direction_id : ℕ
  with_vehicle_id : ℕ
  with_vehicle_label : ℕ
  with_license_plate : ℕ
  with_wheelchair_accessible : ℕ
  with_bearing : ℕ
  with_speed : ℕ
  with_odometer : ℕ
  with_current_stop_sequence : ℕ
  with_stop_id : ℕ
  with_current_status : ℕ
  with_timestamp : ℕ
  with_congestion_level : ℕ
  with_occupancy : ℕ
  with_occupancy_percentage : ℕ
  with_multi_carriage_details : ℕ
deriving DecidableEq, Inhabited

/-- The 18 optional vehicle fields tracked by the aggregator, in the order
of the `push_field` invocations in aggregate.rs lines 87–104. -/
inductive Field where
  | trip_id | route_id | direction_id | vehicle_id | vehicle_label
  | license_plate | wheelchair_accessible | bearing | speed | occupancy
  | stop_sequence | multi_carriage | odometer | stop_id | current_status
  | timestamp | congestion_level | occupancy_percentage
deriving DecidableEq

/-- The presence count a row carries for each field: which `row.with_*`
column feeds each `push_field` call (aggregate.rs lines 87–104). -/
def fieldCount : Field → FeedStats → ℕ
  | Field.trip_id, r => r.with_trip_id
  | Field.route_id, r => r.with_route_id
  | Field.direction_id, r => r.with_direction_id
  | Field.vehicle_id, r => r.with_vehicle_id
  | Field.vehicle_label, r => r.with_vehicle_label
  | Field.license_plate, r => r.with_license_plate
  | Field.wheelchair_accessible, r => r.with_wheelchair_accessible
  | Field.bearing, r => r.with_bearing
  | Field.speed, r => r.with_speed
  | Field.occupancy, r => r.with_occupancy
  | Field.stop_sequence, r => r.with_current_stop_sequence
  | Field.multi_carriage, r => r.with_multi_carriage_details
  | Field.odometer, r => r.with_odometer
  | Field.stop_id, r => r.with_stop_id
  | Field.current_status, r => r.with_current_status
  | Field.timestamp, r => r.with_timestamp
  | Field.congestion_level, r => r.with_congestion_level
  | Field.occupancy_percentage, r => r.with_occupancy_percentage

/-- The string key each field is stored under in the `field_series` map
(the first argument of each `push_field` call). -/
def fieldName : Field → String
  | Field.trip_id => "trip_id"
  | Field.route_id => "route_id"
  | Field.direction_id => "direction_id"
  | Field.vehicle_id => "vehicle_id"
  | Field.vehicle_label => "vehicle_label"
  | Field.license_plate => "license_plate"
  | Field.wheelchair_accessible => "wheelchair_accessible"
  | Field.bearing => "bearing"
  | Field.speed => "speed"
  | Field.occupancy => "occupancy"
  | Field.stop_sequence => "stop_sequence"
  | Field.multi_carriage => "multi_carriage"
  | Field.odometer => "odometer"
  | Field.stop_id => "stop_id"
  | Field.current_status => "current_status"
  | Field.timestamp => "timestamp"
  | Field.congestion_level => "congestion_level"
  | Field.occupancy_percentage => "occupancy_percentage"

/-- All 18 fields, in `push_field` order. -/
def allFields : List Field :=
  [Field.trip_id, Field.route_id, Field.direction_id, Field.vehicle_id,
   Field.vehicle_label, Field.license_plate, Field.wheelchair_accessible,
   Field.bearing, Field.speed, Field.occupancy, Field.stop_sequence,
   Field.multi_carriage, Field.odometer, Field.stop_id,
   Field.current_status, Field.timestamp, Field.congestion_level,
   Field.occupancy_percentage]

/-- Embedding of the static weight table `WEIGHTS`
(aggregate.rs lines 11–31), in source order. -/
def WEIGHTS : List (String × ℚ) :=
  [("route_id", 3), ("direction_id", 3), ("stop_id", 3),
   ("stop_sequence", 3), ("trip_id", 2), ("vehicle_id", 0),
   ("vehicle_label", 0), ("license_plate", 0),
   ("wheelchair_accessible", 0), ("bearing", 0), ("speed", 0),
   ("occupancy", 1), ("multi_carriage", 0), ("odometer", 0),
   ("current_status", 1), ("timestamp", 1), ("congestion_level", 0),
   ("occupancy_percentage", 1), ("uptime", 3)]

/-- `*weights.get(name).unwrap_or(&1.0)` (aggregate.rs line 123). -/
def weightOf (name : String) : ℚ := ((WEIGHTS.lookup name).getD 1)

/-- `*weights.get("uptime").unwrap_or(&3.0)` (aggregate.rs line 139). -/
def uptimeWeight : ℚ := ((WEIGHTS.lookup "uptime").getD 3)

/-- `successful_polls` (aggregate.rs lines 49–52): rows whose
`error_type.as_deref().map_or(true, |s| s.is_empty())` holds, i.e. the
error field is absent or holds the empty string. -/
def successfulPolls (rows : List FeedStats) : ℕ :=
  rows.countP (fun r => r.error_type.elim true String.isEmpty)

/-- `uptime_percent` (aggregate.rs lines 53–57). -/
def uptimePercent (rows : List FeedStats) : ℚ :=
  if rows = [] then 0 else (successfulPolls rows : ℚ) / rows.length

/-- `service_polls` (aggregate.rs line 60): rows with `vehicles > 0`. -/
def servicePolls (rows : List FeedStats) : ℕ :=
  rows.countP (fun r => 0 < r.vehicles)

/-- `service_time_percent` (aggregate.rs lines 61–65). -/
def serviceTimePercent (rows : List FeedStats) : ℚ :=
  if rows = [] then 0 else (servicePolls rows : ℚ) / rows.length

/-- The `vehicle_counts` vector built by the loop in aggregate.rs
lines 71–76: rows with `vehicles == 0` are skipped by the `continue`,
every other row pushes its vehicle count. -/
def vehicleCounts (rows : List FeedStats) : List ℚ :=
  rows.foldl
    (fun acc r => if r.vehicles = 0 then acc else acc ++ [(r.vehicles : ℚ)]) []

/-- The per-field entry of the `field_series` map after the loop in
aggregate.rs lines 71–105: rows with `vehicles == 0` are skipped, every
other row pushes `count / vehicles` onto the field's series. -/
def fieldSeries (rows : List FeedStats) (f : Field) : List ℚ :=
  rows.foldl
    (fun acc r =>
      if r.vehicles = 0 then acc
      else acc ++ [(fieldCount f r : ℚ) / (r.vehicles : ℚ)]) []

/-- `window_minutes` (aggregate.rs lines 40–46); timestamps are already
in minutes, so the duration difference is a plain subtraction. -/
def windowMinutes (rows : List FeedStats) : ℤ :=
  if rows.length < 2 then 0
  else ((rows.getLast?.map (fun r => r.timestamp)).getD 0)
    - ((rows.head?.map (fun r => r.timestamp)).getD 0)

/-- Embedding of `FieldAggregate` (types.rs lines 37–41); `stddev_sq`
carries the square of the code's `stddev` value, see the header note. -/
structure FieldAggregate where
  avg_support : ℚ
  stddev_sq : ℚ
  grade : String
deriving DecidableEq

/-- Embedding of `EntityStats` (types.rs lines 45–49). -/
structure EntityStats where
  avg_vehicles : ℚ
  uptime_percent : ℚ
  service_time_percent : ℚ
deriving DecidableEq

/-- Embedding of `OverallAggregate` (types.rs lines 53–56). -/
structure OverallAggregate where
  score : ℚ
  grade : String
deriving DecidableEq

/-- Embedding of `FeedAggregate` (types.rs lines 60–69).  The `fields`
HashMap, keyed by the 18 static field names, is a function out of
`Field`; a name missing from the map is `none`. -/
structure FeedAggregate where
  schema_version : ℕ
  algorithm_version : ℕ
  feed_id : String
  last_updated : ℤ
  window_minutes : ℤ
  entity_stats : EntityStats
  fields : Field → Option FieldAggregate
  overall : OverallAggregate

/-- The `fields` map entry for one field after the loop in aggregate.rs
lines 115–136: an empty series yields no entry, otherwise the entry holds
the mean, the (squared) population standard deviation at that mean, and
the grade of the mean. -/
def fieldsMap (rows : List FeedStats) (f : Field) : Option FieldAggregate :=
  let s := fieldSeries rows f
  if s = [] then none
  else some { avg_support := mean s
              stddev_sq := stddevSq s (mean s)
              grade := grade (F.val (mean s)) }

/-- `weighted_total` after aggregate.rs lines 112–141: the sum over the
present fields of `avg * weight`, plus `uptime_percent * uptime_weight`
(the uptime term is added unconditionally at lines 139–141).  Addition on
ℚ is commutative, so the HashMap iteration order is irrelevant. -/
def weightedTotal (rows : List FeedStats) : ℚ :=
  (allFields.map (fun f =>
    match fieldsMap rows f with
    | none => 0
    | some fa => fa.avg_support * weightOf (fieldName f))).sum
  + uptimePercent rows * uptimeWeight

/-- `weight_sum` after aggregate.rs lines 113–141: each present field
contributes its weight, and `uptime_weight` is added unconditionally. -/
def weightSum (rows : List FeedStats) : ℚ :=
  (allFields.map (fun f =>
    if fieldSeries rows f = [] then 0 else weightOf (fieldName f))).sum
  + uptimeWeight

/-- `overall_score` (aggregate.rs lines 143–147). -/
def overallScore (rows : List FeedStats) : ℚ :=
  if weightSum rows = 0 then 0 else weightedTotal rows / weightSum rows

/-- Embedding of `aggregate_feed` (aggregate.rs lines 37–166).  The call
to `Utc::now()` at line 38 is modelled by the explicit `now` argument,
which the code stores in `last_updated`.  The function never reaches the
error path of its `anyhow::Result`, so the embedding is total. -/
def aggregateFeed (feedId : String) (rows : List FeedStats) (now : ℤ) :
    FeedAggregate :=
  { schema_version := 1
    algorithm_version := 2
    feed_id := feedId
    last_updated := now
    window_minutes := windowMinutes rows
    entity_stats :=
      { avg_vehicles := mean (vehicleCounts rows)
        uptime_percent := uptimePercent rows
        service_time_percent := serviceTimePercent rows }
    fields := fieldsMap rows
    overall :=
      { score := overallScore rows
        grade := grade (F.val (overallScore rows)) } }

/-! ## Spec-side definitions (for refinement comparisons)

These follow the wording of the specification, to be compared with the
embeddings above, which follow the source. -/

/-- Spec wording: the per-sample support ratio series of a field,
"(field presence count in that sample) / (vehicle count in that sample),
computed only over samples with vehicle count > 0". -/
def specSupportSeries (f : Field) (rows : List FeedStats) : List ℚ :=
  (rows.filter (fun r => 0 < r.vehicles)).map
    (fun r => (fieldCount f r : ℚ) / (r.vehicles : ℚ))

/-- Spec wording: the population variance of a series — the mean of the
squared deviations from the series mean (square of the population
standard deviation). -/
def specPopVariance (s : List ℚ) : ℚ :=
  mean (s.map (fun v => (v - mean s) ^ 2))

/-- Spec wording: the rejected alternative reading of average support,
"the ratio of summed presence counts to summed vehicle counts" (summed
over the samples with vehicle count > 0). -/
def ratioOfSums (f : Field) (rows : List FeedStats) : ℚ :=
  (((rows.filter (fun r => 0 < r.vehicles)).map (fun r => fieldCount f r)).sum : ℚ)
    / (((rows.filter (fun r => 0 < r.vehicles)).map (fun r => r.vehicles)).sum : ℚ)

/-- Row builder used for concrete test inputs: timestamp `t`, vehicle
count `veh`, every presence count equal to `c`, error field `err`. -/
def mkRow (t : ℤ) (veh c : ℕ) (err : Option String) : FeedStats :=
  ⟨t, veh, err, c, c, c, c, c, c, c, c, c, c, c, c, c, c, c, c, c, c⟩

/-- Spec wording: a sample "without an error tag" — the error field is
absent or carries no (non-empty) error string. -/
def specNoErrorTag (r : FeedStats) : Bool :=
  match r.error_type with
  | none => true
  | some s => s.isEmpty

/-- Numeric rank of a letter grade, for stating monotonicity: higher
grades rank higher. -/
def gradeRank (g : String) : ℕ :=
  if g = "A+" then 5
  else if g = "A" then 4
  else if g = "B" then 3
  else if g = "C" then 2
  else if g = "D" then 1
  else 0

end Analyzers

namespace Stats

/-! Embedding of the extractor side (`src/stats.rs`) and the decoded
GTFS-RT message types it reads.  The message types are generated from
the protobuf schema at build time; the structures below carry exactly
the fields `FeedStats::from_feed` accesses.  Protobuf enum values
(`wheelchair_accessible`, `current_status`, `congestion_level`,
`occupancy_status`) are ℤ, string fields are `String`, and numeric
measurements are ℚ. -/

/-- `TripDescriptor`, as read by `from_feed` (stats.rs lines 105–119). -/
structure TripDescriptor where
  trip_id : Option String
  route_id : Option String
  direction_id : Option ℕ
deriving DecidableEq

/-- `VehicleDescriptor`, as read by `from_feed` (stats.rs lines 121–141). -/
structure VehicleDescriptor where
  id : Option String
  label : Option String
  license_plate : Option String
  wheelchair_accessible : Option ℤ
deriving DecidableEq

/-- `Position`, as read by `from_feed` (stats.rs lines 143–157). -/
structure Position where
  latitude : ℚ
  longitude : ℚ
  bearing : Option ℚ
  speed : Option ℚ
  odometer : Option ℚ
deriving DecidableEq

/-- `VehiclePosition`, as read by `from_feed` (stats.rs lines 102–190). -/
structure VehiclePosition where
  trip : Option TripDescriptor
  vehicle : Option VehicleDescriptor
  position : Option Position
  current_stop_sequence : Option ℕ
  stop_id : Option String
  current_status : Option ℤ
  timestamp : Option ℕ
  congestion_level : Option ℤ
  occupancy_status : Option ℤ
  occupancy_percentage : Option ℕ
  multi_carriage_details : List Unit
deriving DecidableEq

/-- `FeedEntity`: one feed entry, holding at most one payload of each
entity kind (stats.rs lines 101–210); payloads other than the vehicle
position are only tested for presence, so they are `Option Unit`. -/
structure FeedEntity where
  id : String
  vehicle : Option VehiclePosition
  trip_update : Option Unit
  alert : Option Unit
  shape : Option Unit
  stop : Option Unit
  trip_modifications : Option Unit
deriving DecidableEq

/-- `FeedMessage`: the decoded feed, as read by `from_feed` (the header
is never consulted). -/
structure FeedMessage where
  entity : List FeedEntity
deriving DecidableEq

/-- Embedding of the extractor-side `FeedStats` (stats.rs lines 18–58). -/
structure FeedStats where
  timestamp : ℤ
  feed_id : Option String
  feed_name : Option String
  total_entities : ℕ
  vehicles : ℕ
  trip_updates : ℕ
  alerts : ℕ
  shapes : ℕ
  stops : ℕ
  trip_modifications : ℕ
  with_trip : ℕ
  with_trip_id : ℕ
  with_route_id : ℕ
  with_direction_id : ℕ
  with_vehicle_descriptor : ℕ
  with_vehicle_id : ℕ
  with_vehicle_label : ℕ
  with_license_plate : ℕ
  with_wheelchair_accessible : ℕ
  with_position : ℕ
  with_bearing : ℕ
  with_speed : ℕ
  with_odometer : ℕ
  with_current_stop_sequence : ℕ
  with_stop_id : ℕ
  with_current_status : ℕ
  with_timestamp : ℕ
  with_congestion_level : ℕ
  with_occupancy : ℕ
  with_occupancy_percentage : ℕ
  with_multi_carriage_details : ℕ
  error_type : Option String
  error_message : Option String
deriving DecidableEq

/-! The conditions under which the loop body of `from_feed` increments
each counter, written as one predicate per counter.  Each predicate is
the conjunction of the `if let` nesting guards with the final presence
test; only the wheelchair predicate inspects the value itself. -/
def entVehicle (e : FeedEntity) : Bool := e.vehicle.isSome

def entTrip (e : FeedEntity) : Bool :=
  e.vehicle.elim false (fun v => v.trip.isSome)

def entTripId (e : FeedEntity) : Bool :=
  e.vehicle.elim false (fun v =>
    v.trip.elim false (fun t => t.trip_id.isSome))

def entRouteId (e : FeedEntity) : Bool :=
  e.vehicle.elim false (fun v =>
    v.trip.elim false (fun t => t.route_id.isSome))

def entDirectionId (e : FeedEntity) : Bool :=
  e.vehicle.elim false (fun v =>
    v.trip.elim false (fun t => t.direction_id.isSome))

def entVehicleDescriptor (e : FeedEntity) : Bool :=
  e.vehicle.elim false (fun v => v.vehicle.isSome)

def entVehicleId (e : FeedEntity) : Bool :=
  e.vehicle.elim false (fun v =>
    v.vehicle.elim false (fun vd => vd.id.isSome))

def entVehicleLabel (e : FeedEntity) : Bool :=
  e.vehicle.elim false (fun v =>
    v.vehicle.elim false (fun vd => vd.label.isSome))

def entLicensePlate (e : FeedEntity) : Bool :=
  e.vehicle.elim false (fun v =>
    v.vehicle.elim false (fun vd => vd.license_plate.isSome))

/-- The wheelchair-accessible increment guard (stats.rs lines 136–140):
`vd.wheelchair_accessible.map_or(false, |v| v != 0)` — the value must be
explicitly set *and* differ from the no-value sentinel 0. -/
def entWheelchair (e : FeedEntity) : Bool :=
  e.vehicle.elim false (fun v =>
    v.vehicle.elim false (fun vd =>
      vd.wheelchair_accessible.elim false (fun w => w != 0)))

def entPosition (e : FeedEntity) : Bool :=
  e.vehicle.elim false (fun v => v.position.isSome)

def entBearing (e : FeedEntity) : Bool :=
  e.vehicle.elim false (fun v =>
    v.position.elim false (fun pos => pos.bearing.isSome))

def entSpeed (e : FeedEntity) : Bool :=
  e.vehicle.elim false (fun v =>
    v.position.elim false (fun pos => pos.speed.isSome))

def entOdometer (e : FeedEntity) : Bool :=
  e.vehicle.elim false (fun v =>
    v.position.elim false (fun pos => pos.odometer.isSome))

def entStopSequence (e : FeedEntity) : Bool :=
  e.vehicle.elim false (fun v => v.current_stop_sequence.isSome)

def entStopId (e : FeedEntity) : Bool :=
  e.vehicle.elim false (fun v => v.stop_id.isSome)

def entCurrentStatus (e : FeedEntity) : Bool :=
  e.vehicle.elim false (fun v => v.current_status.isSome)

def entTimestamp (e : FeedEntity) : Bool :=
  e.vehicle.elim false (fun v => v.timestamp.isSome)

def entCongestionLevel (e : FeedEntity) : Bool :=
  e.vehicle.elim false (fun v => v.congestion_level.isSome)

def entOccupancy (e : FeedEntity) : Bool :=
  e.vehicle.elim false (fun v => v.occupancy_status.isSome)

def entOccupancyPercentage (e : FeedEntity) : Bool :=
  e.vehicle.elim false (fun v => v.occupancy_percentage.isSome)

def entMultiCarriage (e : FeedEntity) : Bool :=
  e.vehicle.elim false (fun v => !v.multi_carriage_details.isEmpty)

/-- One iteration of the entity loop of `from_feed` (stats.rs lines
101–211): each counter is incremented exactly when its guard holds. -/
def entityStep (s : FeedStats) (e : FeedEntity) : FeedStats :=
  { s with
    vehicles := s.vehicles + (if entVehicle e then 1 else 0)
    trip_updates := s.trip_updates + (if e.trip_update.isSome then 1 else 0)
    alerts := s.alerts + (if e.alert.isSome then 1 else 0)
    shapes := s.shapes + (if e.shape.isSome then 1 else 0)
    stops := s.stops + (if e.stop.isSome then 1 else 0)
    trip_modifications :=
      s.trip_modifications + (if e.trip_modifications.isSome then 1 else 0)
    with_trip := s.with_trip + (if entTrip e then 1 else 0)
    with_trip_id := s.with_trip_id + (if entTripId e then 1 else 0)
    with_route_id := s.with_route_id + (if entRouteId e then 1 else 0)
    with_direction_id :=
      s.with_direction_id + (if entDirectionId e then 1 else 0)
    with_vehicle_descriptor :=
      s.with_vehicle_descriptor + (if entVehicleDescriptor e then 1 else 0)
    with_vehicle_id := s.with_vehicle_id + (if entVehicleId e then 1 else 0)
    with_vehicle_label :=
      s.with_vehicle_label + (if entVehicleLabel e then 1 else 0)
    with_license_plate :=
      s.with_license_plate + (if entLicensePlate e then 1 else 0)
    with_wheelchair_accessible :=
      s.with_wheelchair_accessible + (if entWheelchair e then 1 else 0)
    with_position := s.with_position + (if entPosition e then 1 else 0)
    with_bearing := s.with_bearing + (if entBearing e then 1 else 0)
    with_speed := s.with_speed + (if entSpeed e then 1 else 0)
    with_odometer := s.with_odometer + (if entOdometer e then 1 else 0)
    with_current_stop_sequence :=
      s.with_current_stop_sequence + (if entStopSequence e then 1 else 0)
    with_stop_id := s.with_stop_id + (if entStopId e then 1 else 0)
    with_current_status :=
      s.with_current_status + (if entCurrentStatus e then 1 else 0)
    with_timestamp := s.with_timestamp + (if entTimestamp e then 1 else 0)
    with_congestion_level :=
      s.with_congestion_level + (if entCongestionLevel e then 1 else 0)
    with_occupancy := s.with_occupancy + (if entOccupancy e then 1 else 0)
    with_occupancy_percentage :=
      s.with_occupancy_percentage + (if entOccupancyPercentage e then 1 else 0)
    with_multi_carriage_details :=
      s.with_multi_carriage_details + (if entMultiCarriage e then 1 else 0) }

/-- The all-zero initial record of `from_feed` (stats.rs lines 63–97);
the timestamp is the `Utc::now()` reading, passed explicitly. -/
def initStats (now : ℤ) : FeedStats :=
  { timestamp := now
    feed_id := none
    feed_name := none
    total_entities := 0
    vehicles := 0
    trip_updates := 0
    alerts := 0
    shapes := 0
    stops := 0
    trip_modifications := 0
    with_trip := 0
    with_trip_id := 0
    with_route_id := 0
    with_direction_id := 0
    with_vehicle_descriptor := 0
    with_vehicle_id := 0
    with_vehicle_label := 0
    with_license_plate := 0
    with_wheelchair_accessible := 0
    with_position := 0
    with_bearing := 0
    with_speed := 0
    with_odometer := 0
    with_current_stop_sequence := 0
    with_stop_id := 0
    with_current_status := 0
    with_timestamp := 0
    with_congestion_level := 0
    with_occupancy := 0
    with_occupancy_percentage := 0
    with_multi_carriage_details := 0
    error_type := none
    error_message := none }

/-- Embedding of `FeedStats::from_feed` (stats.rs lines 62–214):
`total_entities` is set before the loop, then every entity is folded
through `entityStep`. -/
def fromFeed (now : ℤ) (feed : FeedMessage) : FeedStats :=
  feed.entity.foldl entityStep
    { initStats now with total_entities := feed.entity.length }

/-- Test entity: every optional vehicle attribute explicitly set, each
to its zero / empty-string / default-enum value, with the wheelchair
value a parameter. -/
def demoEntity (w : Option ℤ) : FeedEntity :=
  { id := "v1"
    vehicle := some
      { trip := some { trip_id := some "", route_id := some "",
                       direction_id := some 0 }
        vehicle := some { id := some "", label := some "",
                          license_plate := some "",
                          wheelchair_accessible := w }
        position := some { latitude := 0, longitude := 0,
                           bearing := some 0, speed := some 0,
                           odometer := some 0 }
        current_stop_sequence := some 0
        stop_id := some ""
        current_status := some 0
        timestamp := some 0
        congestion_level := some 0
        occupancy_status := some 0
        occupancy_percentage := some 0
        multi_carriage_details := [()] }
    trip_update := none
    alert := none
    shape := none
    stop := none
    trip_modifications := none }

def demoFeed (w : Option ℤ) : FeedMessage := { entity := [demoEntity w] }

end Stats

namespace Analyzer

/-! Embedding of the per-date publish cycle `analyze_for_date`
(analyzer.rs lines 117–163).  The effectful collaborators are made
explicit state:

* the local row store (per-feed CSV files for the fixed date) is a
  function from feed id to row list — an absent file is the empty list,
  matching `load_feed_rows_for_date`, which returns no rows for a
  missing file;
* S3 is the list of objects successfully put, in order;
* whether a `write_json_to_s3` call for a feed's aggregate succeeds is
  an oracle `pubOk : String → Bool` over feed ids, and the final index
  put is a Boolean `indexOk`;
* `Utc::now()` readings are the explicit `now` argument;
* the `anyhow` error value is modelled as `Option String` — `some` of
  the feed id whose publish failed (or "index"), `none` for `Ok(())`. -/

/-- `FeedIndexEntry` (types.rs lines 73–78). -/
structure FeedIndexEntry where
  feed_id : String
  overall_grade : String
  overall_score : ℚ
  uptime_percent : ℚ
deriving DecidableEq

/-- The observable state threaded through the cycle. -/
structure CycleState where
  store : String → List Analyzers.FeedStats
  published : List (String × Analyzers.FeedAggregate)
  index_entries : List FeedIndexEntry

/-- `delete_feed_csv_for_date` for one feed: that feed's rows for the
date are removed, all other feeds are untouched. -/
def deleteRows (store : String → List Analyzers.FeedStats) (fid : String) :
    String → List Analyzers.FeedStats :=
  fun f => if f = fid then [] else store f

/-- The per-feed loop of `analyze_for_date` (analyzer.rs lines
129–153): skip a feed with no rows; otherwise aggregate, publish the
aggregate (the `?` on a failed put returns the error at once, leaving
the state as it stands), and only after a successful publish append the
index entry and delete the feed's rows. -/
def processFeeds (pubOk : String → Bool) (now : ℤ) :
    List String → CycleState → Option String × CycleState
  | [], st => (none, st)
  | fid :: rest, st =>
    let rows := st.store fid
    if rows = [] then processFeeds pubOk now rest st
    else
      let agg := Analyzers.aggregateFeed fid rows now
      if pubOk fid then
        processFeeds pubOk now rest
          { store := deleteRows st.store fid
            published := st.published ++ [(fid, agg)]
            index_entries := st.index_entries ++
              [{ feed_id := fid
                 overall_grade := agg.overall.grade
                 overall_score := agg.overall.score
                 uptime_percent := agg.entity_stats.uptime_percent }] }
      else (some fid, st)

/-- `analyze_for_date` (analyzer.rs lines 117–163): run the per-feed
loop, then publish the assembled index; an index-publish failure also
surfaces as an error, after the loop's state changes. -/
def analyzeForDate (pubOk : String → Bool) (indexOk : Bool) (now : ℤ)
    (feedIds : List String) (st : CycleState) :
    Option String × CycleState :=
  match processFeeds pubOk now feedIds st with
  | (some e, st2) => (some e, st2)
  | (none, st2) => if indexOk then (none, st2) else (some "index", st2)

/-- A publisher that always succeeds. -/
def pubAll : String → Bool := fun _ => true

/-- A publisher that always fails. -/
def pubNone : String → Bool := fun _ => false

/-- A state in which every feed has one stored row. -/
def oneRowState : CycleState :=
  { store := fun _ => [Analyzers.mkRow 0 1 1 none]
    published := []
    index_entries := [] }

end Analyzer

/-! ## Theorems -/

namespace Analyzers

/-! ## Helper lemmas -/

/-- The skip-or-push loop shape shared by `vehicleCounts` and
`fieldSeries` is a filter-then-map. -/
theorem foldl_skip_push (g : FeedStats → ℚ) (rows : List FeedStats)
    (acc : List ℚ) :
    rows.foldl
      (fun a r => if r.vehicles = 0 then a else a ++ [g r]) acc
      = acc ++ (rows.filter (fun r => 0 < r.vehicles)).map g := by
  induction rows generalizing acc with
  | nil => simp
  | cons r rows ih =>
    by_cases h : r.vehicles = 0
    · simp [List.foldl_cons, h, List.filter_cons, ih]
    · have hp : 0 < r.vehicles := Nat.pos_of_ne_zero h
      simp [List.foldl_cons, h, List.filter_cons, hp, ih]

theorem fieldSeries_eq_spec (rows : List FeedStats) (f : Field) :
    fieldSeries rows f = specSupportSeries f rows :=
  foldl_skip_push _ rows []

theorem vehicleCounts_eq (rows : List FeedStats) :
    vehicleCounts rows
      = (rows.filter (fun r => 0 < r.vehicles)).map (fun r => (r.vehicles : ℚ)) :=
  foldl_skip_push _ rows []

/-- The code's `stddev` intermediate (squared) at the series mean is the
spec's population variance of the series. -/
theorem stddevSq_eq_specPopVariance (s : List ℚ) :
    stddevSq s (mean s) = specPopVariance s := by
  rcases eq_or_ne s [] with h | h
  · simp [h, stddevSq, specPopVariance, mean]
  · have hlen : (s.map (fun v => (v - mean s) ^ 2)) ≠ [] := by
      simpa using h
    simp [stddevSq, specPopVariance, mean, h, hlen]

theorem successfulPolls_eq_countP (rows : List FeedStats) :
    successfulPolls rows = rows.countP specNoErrorTag := by
  unfold successfulPolls
  congr 1
  funext r
  cases h : r.error_type <;> simp [specNoErrorTag, h]

/-- The chain of guards in `grade`, restated as a propositional
if-chain over the numeric value. -/
theorem grade_val_eq (p : ℚ) :
    grade (F.val p) =
      if 95/100 ≤ p then "A+"
      else if 90/100 ≤ p then "A"
      else if 80/100 ≤ p then "B"
      else if 65/100 ≤ p then "C"
      else if 40/100 ≤ p then "D"
      else "F" := by
  simp only [grade, F.ge, decide_eq_true_eq]

theorem gradeRank_grade_val (p : ℚ) :
    gradeRank (grade (F.val p)) =
      if 95/100 ≤ p then 5
      else if 90/100 ≤ p then 4
      else if 80/100 ≤ p then 3
      else if 65/100 ≤ p then 2
      else if 40/100 ≤ p then 1
      else 0 := by
  rw [grade_val_eq]
  split_ifs <;> simp [gradeRank]

/-- C1: for every input row list, the per-field average support produced
by `aggregate_feed` is the mean of the per-sample support ratios (one
ratio per sample with vehicle count > 0), its reported standard
deviation is the population standard deviation of that same ratio
series (stated on the squares, which determine the nonnegative standard
deviations exactly), samples with vehicle count 0 contribute no ratio to
any field's series, and the result differs from the ratio of summed
presence counts to summed vehicle counts: on the concrete rows
(1 vehicle, 1 presence) and (3 vehicles, 0 presences), the code reports
1/2 while the ratio of sums is 1/4. -/
theorem c1_support_mean_of_ratios :
    (∀ (rows : List FeedStats) (f : Field),
        fieldSeries rows f = specSupportSeries f rows) ∧
    (∀ (rows : List FeedStats) (f : Field),
        fieldsMap rows f =
          if specSupportSeries f rows = [] then none
          else some
            { avg_support := mean (specSupportSeries f rows)
              stddev_sq := specPopVariance (specSupportSeries f rows)
              grade := grade (F.val (mean (specSupportSeries f rows))) }) ∧
    (fieldsMap [mkRow 0 1 1 none, mkRow 0 3 0 none] Field.route_id).map
        FieldAggregate.avg_support = some (1/2) ∧
    ratioOfSums Field.route_id [mkRow 0 1 1 none, mkRow 0 3 0 none] = 1/4 ∧
    ((1 : ℚ)/2) ≠ 1/4 := by
  refine ⟨fun rows f => fieldSeries_eq_spec rows f, fun rows f => ?_, ?_, ?_, by norm_num⟩
  · simp only [fieldsMap, fieldSeries_eq_spec, stddevSq_eq_specPopVariance]
  · simp [fieldsMap, fieldSeries, mkRow, fieldCount, mean, stddevSq, grade, F.ge] <;> norm_num
  · simp [ratioOfSums, mkRow, fieldCount, List.filter_cons] <;> norm_num

/-- C2: `aggregate_feed` reports uptime = (samples without an error tag)
/ (total samples) and service-time = (samples with vehicle count > 0) /
(total samples), both 0 on an empty row list; concretely 3 successful +
1 error sample give uptime 3/4 and 2 samples with vehicles + 2 without
give service-time 1/2. -/
theorem c2_uptime_and_service_time :
    (∀ rows : List FeedStats,
        uptimePercent rows =
          if rows = [] then 0 else (rows.countP specNoErrorTag : ℚ) / rows.length) ∧
    (∀ rows : List FeedStats,
        serviceTimePercent rows =
          if rows = [] then 0
          else (rows.countP (fun r => 0 < r.vehicles) : ℚ) / rows.length) ∧
    uptimePercent [] = 0 ∧ serviceTimePercent [] = 0 ∧
    uptimePercent
      [mkRow 0 10 0 none, mkRow 0 10 0 none, mkRow 0 10 0 none,
       mkRow 0 0 0 (some "fetch_error")] = 3/4 ∧
    serviceTimePercent
      [mkRow 0 5 0 none, mkRow 0 5 0 none, mkRow 0 0 0 none,
       mkRow 0 0 0 none] = 1/2 := by
  refine ⟨fun rows => ?_, fun rows => rfl, rfl, rfl, ?_, ?_⟩
  · rw [uptimePercent, successfulPolls_eq_countP]
  · simp [uptimePercent, successfulPolls, mkRow, List.countP_cons,
      show String.isEmpty "fetch_error" = false from by decide] <;> norm_num
  · simp [serviceTimePercent, servicePolls, mkRow, List.countP_cons] <;> norm_num

/-- C3: `grade` maps a ratio to a letter by bands whose lower bound is
included (the guard cascade takes the first band whose threshold the
value reaches): p ≥ 0.95 gives A+, then 0.90 ≤ p < 0.95 gives A,
0.80 ≤ p < 0.90 gives B, 0.65 ≤ p < 0.80 gives C, 0.40 ≤ p < 0.65
gives D, and p < 0.40 gives F; the induced rank is monotone
non-decreasing in p, and the boundary values 0.95, 0.90 and 0.40 map to
the higher band. -/
theorem c3_grade_bands_and_monotonicity :
    (∀ p : ℚ, 95/100 ≤ p → grade (F.val p) = "A+") ∧
    (∀ p : ℚ, 90/100 ≤ p → p < 95/100 → grade (F.val p) = "A") ∧
    (∀ p : ℚ, 80/100 ≤ p → p < 90/100 → grade (F.val p) = "B") ∧
    (∀ p : ℚ, 65/100 ≤ p → p < 80/100 → grade (F.val p) = "C") ∧
    (∀ p : ℚ, 40/100 ≤ p → p < 65/100 → grade (F.val p) = "D") ∧
    (∀ p : ℚ, p < 40/100 → grade (F.val p) = "F") ∧
    (∀ p q : ℚ, p ≤ q →
        gradeRank (grade (F.val p)) ≤ gradeRank (grade (F.val q))) ∧
    grade (F.val (95/100)) = "A+" ∧
    grade (F.val (90/100)) = "A" ∧
    grade (F.val (40/100)) = "D" := by
  refine ⟨fun p h1 => ?_, fun p h1 h2 => ?_, fun p h1 h2 => ?_,
    fun p h1 h2 => ?_, fun p h1 h2 => ?_, fun p h1 => ?_,
    fun p q hpq => ?_, ?_, ?_, ?_⟩ <;>
    rw [grade_val_eq] <;> try rw [grade_val_eq]
  · rw [if_pos h1]
  · split_ifs <;> first | rfl | linarith
  · split_ifs <;> first | rfl | linarith
  · split_ifs <;> first | rfl | linarith
  · split_ifs <;> first | rfl | linarith
  · split_ifs <;> first | rfl | linarith
  · rw [← grade_val_eq, ← grade_val_eq, gradeRank_grade_val,
      gradeRank_grade_val]
    split_ifs <;> first | linarith | norm_num
  · norm_num
  · norm_num
  · norm_num

/-- Witness for C3: instantiates the A band at 0.92 and monotonicity at
the pair (0.5, 0.9). -/
theorem c3_witness :
    ((90 : ℚ)/100 ≤ 92/100 ∧ (92 : ℚ)/100 < 95/100 ∧
      grade (F.val (92/100)) = "A") ∧
    ((1 : ℚ)/2 ≤ 9/10 ∧
      gradeRank (grade (F.val (1/2))) ≤ gradeRank (grade (F.val (9/10)))) :=
  ⟨⟨by norm_num, by norm_num,
      c3_grade_bands_and_monotonicity.2.1 (92/100) (by norm_num) (by norm_num)⟩,
   ⟨by norm_num,
      c3_grade_bands_and_monotonicity.2.2.2.2.2.2.1 (1/2) (9/10) (by norm_num)⟩⟩

/-- C9: `grade` is total and always returns one of the six letters; a
NaN input and any negative input return F (every IEEE comparison with
NaN is false, so the cascade falls through), and any value at or above
0.95 — including values above 1 — returns A+. -/
theorem c9_grade_total_and_edge_cases :
    (∀ x : F, grade x = "A+" ∨ grade x = "A" ∨ grade x = "B" ∨
        grade x = "C" ∨ grade x = "D" ∨ grade x = "F") ∧
    grade F.nan = "F" ∧
    (∀ q : ℚ, q < 0 → grade (F.val q) = "F") ∧
    (∀ q : ℚ, 95/100 ≤ q → grade (F.val q) = "A+") ∧
    grade (F.val (11/10)) = "A+" := by
  refine ⟨fun x => ?_, ?_, fun q hq => ?_, fun q hq => ?_, ?_⟩
  · cases x with
    | nan => simp [grade, F.ge]
    | val p => rw [grade_val_eq]; split_ifs <;> tauto
  · simp [grade, F.ge]
  · rw [grade_val_eq]; split_ifs <;> first | rfl | linarith
  · rw [grade_val_eq, if_pos hq]
  · rw [grade_val_eq]; norm_num

/-- Witness for C9: instantiates the negative case at -1 and the
above-one case at 2. -/
theorem c9_witness :
    ((-1 : ℚ) < 0 ∧ grade (F.val (-1)) = "F") ∧
    ((95 : ℚ)/100 ≤ 2 ∧ grade (F.val 2) = "A+") :=
  ⟨⟨by norm_num, c9_grade_total_and_edge_cases.2.2.1 (-1) (by norm_num)⟩,
   ⟨by norm_num, c9_grade_total_and_edge_cases.2.2.2.1 2 (by norm_num)⟩⟩

/-- On an empty row list the weighted total is 0 while the weight sum
is the uptime weight 3, so the overall score is 0. -/
theorem overallScore_nil : overallScore [] = 0 := by
  simp [overallScore, weightSum, weightedTotal, allFields,
    fieldSeries, fieldsMap, uptimePercent, uptimeWeight, WEIGHTS,
    List.lookup] <;> norm_num

/-- C5: aggregating an empty row list yields uptime 0, service-time 0,
overall score 0 and an empty per-field map. -/
theorem c5_empty_aggregate (id : String) (now : ℤ) :
    (aggregateFeed id [] now).entity_stats.uptime_percent = 0 ∧
    (aggregateFeed id [] now).entity_stats.service_time_percent = 0 ∧
    (aggregateFeed id [] now).overall.score = 0 ∧
    ∀ f, (aggregateFeed id [] now).fields f = none :=
  ⟨rfl, rfl, overallScore_nil, fun f => by simp [aggregateFeed, fieldsMap, fieldSeries]⟩

theorem uptimeWeight_eq : uptimeWeight = 3 := by
  simp [uptimeWeight, WEIGHTS, List.lookup]

theorem weightOf_fieldName_nonneg (f : Field) : 0 ≤ weightOf (fieldName f) := by
  cases f <;> simp [weightOf, fieldName, WEIGHTS, List.lookup] <;> norm_num

/-- The `weight_sum` accumulator always ends at least at the uptime
weight: the per-field contributions are nonnegative and the uptime
weight is added unconditionally (aggregate.rs lines 139–141). -/
theorem weightSum_ge_three (rows : List FeedStats) : 3 ≤ weightSum rows := by
  have h0 : 0 ≤ (allFields.map (fun f =>
      if fieldSeries rows f = [] then 0 else weightOf (fieldName f))).sum := by
    refine List.sum_nonneg ?_
    intro x hx
    simp only [List.mem_map] at hx
    obtain ⟨f, _, rfl⟩ := hx
    split_ifs
    · exact le_refl 0
    · exact weightOf_fieldName_nonneg f
  have := uptimeWeight_eq
  unfold weightSum
  linarith

/-- C4 as stated is false on the code: uptime's weight (3.0) is not
strictly the single largest entry of the weight table — route_id also
weighs 3.0 — and the uptime weight is applied even to an empty row
list, so the total applied weight with zero samples is 3, not 0. -/
theorem c4_counterexample :
    weightOf "route_id" = 3 ∧ uptimeWeight = 3 ∧
    ¬ weightOf "route_id" < uptimeWeight ∧
    weightSum [] = 3 := by
  refine ⟨?_, uptimeWeight_eq, ?_, ?_⟩
  · simp [weightOf, WEIGHTS, List.lookup]
  · simp [weightOf, uptimeWeight, WEIGHTS, List.lookup]
  · simp [weightSum, allFields, fieldSeries, uptimeWeight, WEIGHTS,
      List.lookup]

/-- C4 amended: uptime's weight (3.0) is a maximum of the weight table,
shared with route_id, direction_id, stop_id and stop_sequence; the
uptime term and its weight are added to the totals unconditionally —
with zero samples as well — so the total applied weight is never zero,
and with zero samples the overall score is nevertheless 0 because the
weighted total is 0. -/
theorem c4_amended :
    (∀ p ∈ WEIGHTS, p.2 ≤ uptimeWeight) ∧
    (∀ rows : List FeedStats, weightSum rows ≠ 0) ∧
    (∀ (id : String) (now : ℤ), (aggregateFeed id [] now).overall.score = 0) := by
  refine ⟨?_, fun rows => ?_, fun id now => overallScore_nil⟩
  · intro p hp
    rw [uptimeWeight_eq]
    fin_cases hp <;> norm_num
  · have := weightSum_ge_three rows
    intro h
    rw [h] at this
    norm_num at this

/-- Witness for C4 amended: instantiates the table bound at the
route_id entry and the nonzero-weight fact at the empty row list. -/
theorem c4_amended_witness :
    (("route_id", (3 : ℚ)) ∈ WEIGHTS ∧ (("route_id", (3 : ℚ))).2 ≤ uptimeWeight) ∧
    weightSum [] ≠ 0 :=
  ⟨⟨by simp [WEIGHTS], c4_amended.1 _ (by simp [WEIGHTS])⟩,
   c4_amended.2.1 []⟩

/-- C8 fails as stated: `aggregate_feed` reads the wall clock
(`Utc::now()`, aggregate.rs line 38) and stores it in `last_updated`, so
two invocations on the same feed id and row list made at different
clock readings produce unequal `FeedAggregate` values. -/
theorem c8_counterexample :
    aggregateFeed "feed" [] 0 ≠ aggregateFeed "feed" [] 1 := by
  intro h
  have h0 := congrArg FeedAggregate.last_updated h
  simp [aggregateFeed] at h0

/-- C8 amended: `aggregate_feed` is pure, deterministic and idempotent
given the clock reading — every output component other than
`last_updated` depends only on the feed id and the row list, and
`last_updated` is exactly the clock value passed in. -/
theorem c8_deterministic_modulo_clock (id : String) (rows : List FeedStats)
    (t t' : ℤ) :
    (aggregateFeed id rows t).schema_version
      = (aggregateFeed id rows t').schema_version ∧
    (aggregateFeed id rows t).algorithm_version
      = (aggregateFeed id rows t').algorithm_version ∧
    (aggregateFeed id rows t).feed_id = (aggregateFeed id rows t').feed_id ∧
    (aggregateFeed id rows t).window_minutes
      = (aggregateFeed id rows t').window_minutes ∧
    (aggregateFeed id rows t).entity_stats
      = (aggregateFeed id rows t').entity_stats ∧
    (aggregateFeed id rows t).fields = (aggregateFeed id rows t').fields ∧
    (aggregateFeed id rows t).overall = (aggregateFeed id rows t').overall ∧
    (aggregateFeed id rows t).last_updated = t :=
  ⟨rfl, rfl, rfl, rfl, rfl, rfl, rfl, rfl⟩

/-- C10: a row whose error field is present but holds the empty string
is counted as a successful poll, exactly like a row with no error field;
only a non-empty error string marks a row as failed. -/
theorem c10_empty_error_string_is_success :
    (∀ r : FeedStats,
        (r.error_type.elim true String.isEmpty) = true ↔
          (r.error_type = none ∨ r.error_type = some "")) ∧
    successfulPolls [mkRow 0 0 0 (some "")] = 1 ∧
    successfulPolls [mkRow 0 0 0 none] = 1 ∧
    successfulPolls [mkRow 0 0 0 (some "fetch_error")] = 0 ∧
    uptimePercent [mkRow 0 0 0 (some ""), mkRow 0 0 0 (some "fetch_error")]
      = 1/2 ∧
    uptimePercent [mkRow 0 0 0 none, mkRow 0 0 0 (some "fetch_error")]
      = 1/2 := by
  have hfe : String.isEmpty "fetch_error" = false := by decide
  have hem : String.isEmpty "" = true := rfl
  refine ⟨fun r => ?_, ?_, ?_, ?_, ?_, ?_⟩
  · cases h : r.error_type with
    | none => simp
    | some s => simp [String.isEmpty_iff]
  · simp [successfulPolls, mkRow, List.countP_cons, hem]
  · simp [successfulPolls, mkRow, List.countP_cons]
  · simp [successfulPolls, mkRow, List.countP_cons, hfe]
  · simp [uptimePercent, successfulPolls, mkRow, List.countP_cons, hfe, hem]
      <;> norm_num
  · simp [uptimePercent, successfulPolls, mkRow, List.countP_cons, hfe]
      <;> norm_num

end Analyzers

namespace Stats

/-- A counter of `entityStep` that advances by the indicator of `p`
counts exactly the entities satisfying `p` over the whole fold. -/
theorem foldl_proj_count (proj : FeedStats → ℕ) (p : FeedEntity → Bool)
    (hstep : ∀ s e, proj (entityStep s e) = proj s + (if p e then 1 else 0)) :
    ∀ (es : List FeedEntity) (s : FeedStats),
      proj (es.foldl entityStep s) = proj s + es.countP p := by
  intro es
  induction es with
  | nil => intro s; simp
  | cons e es ih =>
    intro s
    rw [List.foldl_cons, ih, hstep, List.countP_cons]
    by_cases h : p e <;> simp [h] <;> omega

/-- C6: the extractor counts the wheelchair-accessible attribute as
present exactly when it is explicitly set to a value other than the
no-value sentinel 0 (an absent value and an explicit 0 both count as
not reported), while every other counted vehicle attribute counts any
explicitly set value: each counter equals the count of entities
satisfying a pure presence test, only the wheelchair predicate inspects
the value, and on a vehicle whose attributes are all explicitly set to
zero / empty values every attribute counts 1 except wheelchair, which
counts 1 only for an explicit non-zero value. -/
theorem c6_wheelchair_sentinel_policy :
    (∀ (now : ℤ) (feed : FeedMessage),
        (fromFeed now feed).with_wheelchair_accessible
          = feed.entity.countP entWheelchair) ∧
    (∀ e : FeedEntity,
        entWheelchair e = true ↔
          ∃ v vd w, e.vehicle = some v ∧ v.vehicle = some vd ∧
            vd.wheelchair_accessible = some w ∧ w ≠ 0) ∧
    (∀ (now : ℤ) (feed : FeedMessage),
        (fromFeed now feed).with_trip_id = feed.entity.countP entTripId ∧
        (fromFeed now feed).with_route_id = feed.entity.countP entRouteId ∧
        (fromFeed now feed).with_direction_id
          = feed.entity.countP entDirectionId ∧
        (fromFeed now feed).with_vehicle_id
          = feed.entity.countP entVehicleId ∧
        (fromFeed now feed).with_vehicle_label
          = feed.entity.countP entVehicleLabel ∧
        (fromFeed now feed).with_license_plate
          = feed.entity.countP entLicensePlate ∧
        (fromFeed now feed).with_bearing = feed.entity.countP entBearing ∧
        (fromFeed now feed).with_speed = feed.entity.countP entSpeed ∧
        (fromFeed now feed).with_odometer = feed.entity.countP entOdometer ∧
        (fromFeed now feed).with_current_stop_sequence
          = feed.entity.countP entStopSequence ∧
        (fromFeed now feed).with_stop_id = feed.entity.countP entStopId ∧
        (fromFeed now feed).with_current_status
          = feed.entity.countP entCurrentStatus ∧
        (fromFeed now feed).with_timestamp
          = feed.entity.countP entTimestamp ∧
        (fromFeed now feed).with_congestion_level
          = feed.entity.countP entCongestionLevel ∧
        (fromFeed now feed).with_occupancy
          = feed.entity.countP entOccupancy ∧
        (fromFeed now feed).with_occupancy_percentage
          = feed.entity.countP entOccupancyPercentage ∧
        (fromFeed now feed).with_multi_carriage_details
          = feed.entity.countP entMultiCarriage) ∧
    (fromFeed 0 (demoFeed (some 0))).with_wheelchair_accessible = 0 ∧
    (fromFeed 0 (demoFeed none)).with_wheelchair_accessible = 0 ∧
    (fromFeed 0 (demoFeed (some 1))).with_wheelchair_accessible = 1 ∧
    (fromFeed 0 (demoFeed (some 0))).with_trip_id = 1 ∧
    (fromFeed 0 (demoFeed (some 0))).with_route_id = 1 ∧
    (fromFeed 0 (demoFeed (some 0))).with_direction_id = 1 ∧
    (fromFeed 0 (demoFeed (some 0))).with_vehicle_id = 1 ∧
    (fromFeed 0 (demoFeed (some 0))).with_vehicle_label = 1 ∧
    (fromFeed 0 (demoFeed (some 0))).with_license_plate = 1 ∧
    (fromFeed 0 (demoFeed (some 0))).with_bearing = 1 ∧
    (fromFeed 0 (demoFeed (some 0))).with_speed = 1 ∧
    (fromFeed 0 (demoFeed (some 0))).with_odometer = 1 ∧
    (fromFeed 0 (demoFeed (some 0))).with_current_stop_sequence = 1 ∧
    (fromFeed 0 (demoFeed (some 0))).with_stop_id = 1 ∧
    (fromFeed 0 (demoFeed (some 0))).with_current_status = 1 ∧
    (fromFeed 0 (demoFeed (some 0))).with_timestamp = 1 ∧
    (fromFeed 0 (demoFeed (some 0))).with_congestion_level = 1 ∧
    (fromFeed 0 (demoFeed (some 0))).with_occupancy = 1 ∧
    (fromFeed 0 (demoFeed (some 0))).with_occupancy_percentage = 1 ∧
    (fromFeed 0 (demoFeed (some 0))).with_multi_carriage_details = 1 := by
  refine ⟨fun now feed => ?_, fun e => ?_, fun now feed => ?_,
    ?_, ?_, ?_, ?_, ?_, ?_, ?_, ?_, ?_, ?_, ?_, ?_, ?_, ?_, ?_, ?_, ?_,
    ?_, ?_, ?_⟩
  · rw [fromFeed,
      foldl_proj_count FeedStats.with_wheelchair_accessible entWheelchair
        (fun s e => rfl)]
    exact Nat.zero_add _
  · cases hv : e.vehicle with
    | none => simp [entWheelchair, hv]
    | some v =>
      cases hvd : v.vehicle with
      | none => simp [entWheelchair, hv, hvd]
      | some vd =>
        cases hw : vd.wheelchair_accessible with
        | none => simp [entWheelchair, hv, hvd, hw]
        | some w => simp [entWheelchair, hv, hvd, hw, bne_iff_ne]
  · refine ⟨?_, ?_, ?_, ?_, ?_, ?_, ?_, ?_, ?_, ?_, ?_, ?_, ?_, ?_, ?_,
      ?_, ?_⟩ <;>
      rw [fromFeed] <;>
      first
      | rw [foldl_proj_count FeedStats.with_trip_id entTripId
            (fun s e => rfl)]; exact Nat.zero_add _
      | rw [foldl_proj_count FeedStats.with_route_id entRouteId
            (fun s e => rfl)]; exact Nat.zero_add _
      | rw [foldl_proj_count FeedStats.with_direction_id entDirectionId
            (fun s e => rfl)]; exact Nat.zero_add _
      | rw [foldl_proj_count FeedStats.with_vehicle_id entVehicleId
            (fun s e => rfl)]; exact Nat.zero_add _
      | rw [foldl_proj_count FeedStats.with_vehicle_label entVehicleLabel
            (fun s e => rfl)]; exact Nat.zero_add _
      | rw [foldl_proj_count FeedStats.with_license_plate entLicensePlate
            (fun s e => rfl)]; exact Nat.zero_add _
      | rw [foldl_proj_count FeedStats.with_bearing entBearing
            (fun s e => rfl)]; exact Nat.zero_add _
      | rw [foldl_proj_count FeedStats.with_speed entSpeed
            (fun s e => rfl)]; exact Nat.zero_add _
      | rw [foldl_proj_count FeedStats.with_odometer entOdometer
            (fun s e => rfl)]; exact Nat.zero_add _
      | rw [foldl_proj_count FeedStats.with_current_stop_sequence
            entStopSequence (fun s e => rfl)]; exact Nat.zero_add _
      | rw [foldl_proj_count FeedStats.with_stop_id entStopId
            (fun s e => rfl)]; exact Nat.zero_add _
      | rw [foldl_proj_count FeedStats.with_current_status entCurrentStatus
            (fun s e => rfl)]; exact Nat.zero_add _
      | rw [foldl_proj_count FeedStats.with_timestamp entTimestamp
            (fun s e => rfl)]; exact Nat.zero_add _
      | rw [foldl_proj_count FeedStats.with_congestion_level
            entCongestionLevel (fun s e => rfl)]; exact Nat.zero_add _
      | rw [foldl_proj_count FeedStats.with_occupancy entOccupancy
            (fun s e => rfl)]; exact Nat.zero_add _
      | rw [foldl_proj_count FeedStats.with_occupancy_percentage
            entOccupancyPercentage (fun s e => rfl)]; exact Nat.zero_add _
      | rw [foldl_proj_count FeedStats.with_multi_carriage_details
            entMultiCarriage (fun s e => rfl)]; exact Nat.zero_add _
  all_goals rfl

end Stats

namespace Analyzer

/-- The cycle only ever appends to the published-object log. -/
theorem processFeeds_published_mono (pubOk : String → Bool) (now : ℤ)
    (fids : List String) (st : CycleState) (x : String × Analyzers.FeedAggregate)
    (hx : x ∈ st.published) :
    x ∈ (processFeeds pubOk now fids st).2.published := by
  induction fids generalizing st with
  | nil => simpa [processFeeds]
  | cons g rest ih =>
    rw [processFeeds]
    by_cases hrows : st.store g = []
    · simpa [hrows] using ih st hx
    · by_cases hpub : pubOk g
      · simp only [hrows, hpub, if_neg, if_pos, if_true, ite_false]
        refine ih _ ?_
        simp [hx]
      · simpa [hrows, hpub] using hx

/-- A feed's rows change over the cycle only if that feed's aggregate
publish succeeded, and then the aggregate of exactly the rows that were
deleted is in the published log. -/
theorem processFeeds_delete_only_after_publish (pubOk : String → Bool)
    (now : ℤ) (fids : List String) (st : CycleState) (fid : String)
    (hch : (processFeeds pubOk now fids st).2.store fid ≠ st.store fid) :
    pubOk fid = true ∧
      ∃ rows, rows ≠ [] ∧
        (fid, Analyzers.aggregateFeed fid rows now)
          ∈ (processFeeds pubOk now fids st).2.published := by
  induction fids generalizing st with
  | nil => simp [processFeeds] at hch
  | cons g rest ih =>
    rw [processFeeds] at hch ⊢
    by_cases hrows : st.store g = []
    · simp only [hrows, if_pos, ite_true] at hch ⊢
      exact ih st hch
    · by_cases hpub : pubOk g
      · simp only [hrows, hpub, ite_false, ite_true, if_neg, if_pos] at hch ⊢
        by_cases hfg : fid = g
        · subst hfg
          refine ⟨hpub, st.store fid, hrows, ?_⟩
          refine processFeeds_published_mono pubOk now rest _ _ ?_
          simp
        · have hst : (deleteRows st.store g) fid = st.store fid := by
            simp [deleteRows, hfg]
          have hch2 : (processFeeds pubOk now rest
              { store := deleteRows st.store g
                published := st.published ++
                  [(g, Analyzers.aggregateFeed g (st.store g) now)]
                index_entries := st.index_entries ++
                  [{ feed_id := g
                     overall_grade :=
                       (Analyzers.aggregateFeed g (st.store g) now).overall.grade
                     overall_score :=
                       (Analyzers.aggregateFeed g (st.store g) now).overall.score
                     uptime_percent :=
                       (Analyzers.aggregateFeed g (st.store g) now).entity_stats.uptime_percent }] }).2.store
              fid ≠ (deleteRows st.store g) fid := by
            rw [hst]; exact hch
          exact ih _ hch2
      · simp only [hrows, hpub, ite_false, if_neg] at hch
        simp at hch

/-- If some feed in the cycle has rows and a failing publisher, the
cycle surfaces an error and that feed's rows are untouched. -/
theorem processFeeds_failure_leaves_rows (pubOk : String → Bool) (now : ℤ)
    (fids : List String) (st : CycleState) (fid : String)
    (hfail : pubOk fid = false) :
    fid ∈ fids → st.store fid ≠ [] →
    (processFeeds pubOk now fids st).1.isSome = true ∧
      (processFeeds pubOk now fids st).2.store fid = st.store fid := by
  induction fids generalizing st with
  | nil => intro hmem; simp at hmem
  | cons g rest ih =>
    intro hmem hrows
    rw [processFeeds]
    rcases List.mem_cons.mp hmem with hfg | hrest
    · subst hfg
      simp only [if_neg hrows, hfail, ite_false, if_neg, Bool.false_eq_true]
      simp
    · by_cases hg : st.store g = []
      · simp only [hg, ite_true, if_pos]
        exact ih st hrest hrows
      · by_cases hp : pubOk g
        · have hfg : fid ≠ g := fun h => by rw [h, hp] at hfail; cases hfail
          have hst : (deleteRows st.store g) fid = st.store fid := by
            simp [deleteRows, hfg]
          simp only [hg, hp, ite_true, ite_false, if_neg, if_pos]
          have := ih
              { store := deleteRows st.store g
                published := st.published ++
                  [(g, Analyzers.aggregateFeed g (st.store g) now)]
                index_entries := st.index_entries ++
                  [{ feed_id := g
                     overall_grade :=
                       (Analyzers.aggregateFeed g (st.store g) now).overall.grade
                     overall_score :=
                       (Analyzers.aggregateFeed g (st.store g) now).overall.score
                     uptime_percent :=
                       (Analyzers.aggregateFeed g (st.store g) now).entity_stats.uptime_percent }] }
              hrest (by simpa [hst] using hrows)
          simpa [hst] using this
        · simp [hg, hp]

/-- The index-publish step after the loop passes the loop's state
through unchanged. -/
theorem analyzeForDate_state (pubOk : String → Bool) (indexOk : Bool)
    (now : ℤ) (fids : List String) (st : CycleState) :
    (analyzeForDate pubOk indexOk now fids st).2
      = (processFeeds pubOk now fids st).2 := by
  unfold analyzeForDate
  rcases h : processFeeds pubOk now fids st with ⟨e, st2⟩
  cases e <;> cases indexOk <;> simp

/-- An error in the per-feed loop is surfaced by `analyze_for_date`. -/
theorem analyzeForDate_err (pubOk : String → Bool) (indexOk : Bool)
    (now : ℤ) (fids : List String) (st : CycleState)
    (h : (processFeeds pubOk now fids st).1.isSome = true) :
    (analyzeForDate pubOk indexOk now fids st).1.isSome = true := by
  unfold analyzeForDate
  rcases hp : processFeeds pubOk now fids st with ⟨e, st2⟩
  rw [hp] at h
  cases e <;> cases indexOk <;> simp_all

/-- C7: in the per-date publish cycle, a feed's consumed rows are
deleted only after that feed's aggregate publish succeeded — whenever a
feed's rows changed, its publish succeeded and the aggregate of the
deleted rows is in the published log — and if a feed's publish fails,
the cycle returns an error with that feed's rows left intact for a
later retry of the same window. -/
theorem c7_delete_only_after_publish :
    (∀ (pubOk : String → Bool) (indexOk : Bool) (now : ℤ)
        (fids : List String) (st : CycleState) (fid : String),
      (analyzeForDate pubOk indexOk now fids st).2.store fid ≠ st.store fid →
        pubOk fid = true ∧
          ∃ rows, rows ≠ [] ∧
            (fid, Analyzers.aggregateFeed fid rows now)
              ∈ (analyzeForDate pubOk indexOk now fids st).2.published) ∧
    (∀ (pubOk : String → Bool) (indexOk : Bool) (now : ℤ)
        (fids : List String) (st : CycleState) (fid : String),
      fid ∈ fids → pubOk fid = false → st.store fid ≠ [] →
        (analyzeForDate pubOk indexOk now fids st).1.isSome = true ∧
          (analyzeForDate pubOk indexOk now fids st).2.store fid
            = st.store fid) := by
  constructor
  · intro pubOk indexOk now fids st fid hch
    rw [analyzeForDate_state] at hch ⊢
    exact processFeeds_delete_only_after_publish pubOk now fids st fid hch
  · intro pubOk indexOk now fids st fid hmem hfail hrows
    have h := processFeeds_failure_leaves_rows pubOk now fids st fid hfail
      hmem hrows
    exact ⟨analyzeForDate_err pubOk indexOk now fids st h.1,
      by rw [analyzeForDate_state]; exact h.2⟩

/-- Witness for C7: with a succeeding publisher, feed "a"'s rows do
change (they are deleted) and the theorem yields the publish evidence;
with a failing publisher, the cycle errors and the rows survive. -/
theorem c7_witness :
    ((analyzeForDate pubAll true 0 ["a"] oneRowState).2.store "a"
        ≠ oneRowState.store "a" ∧
      pubAll "a" = true ∧
        ∃ rows, rows ≠ [] ∧
          ("a", Analyzers.aggregateFeed "a" rows 0)
            ∈ (analyzeForDate pubAll true 0 ["a"] oneRowState).2.published) ∧
    ("a" ∈ ["a"] ∧ pubNone "a" = false ∧
      oneRowState.store "a" ≠ [] ∧
      (analyzeForDate pubNone true 0 ["a"] oneRowState).1.isSome = true ∧
      (analyzeForDate pubNone true 0 ["a"] oneRowState).2.store "a"
        = oneRowState.store "a") :=
  have hch : (analyzeForDate pubAll true 0 ["a"] oneRowState).2.store "a"
      ≠ oneRowState.store "a" := by
    simp [analyzeForDate, processFeeds, oneRowState, pubAll, deleteRows,
      Analyzers.mkRow]
  have hrows : oneRowState.store "a" ≠ [] := by
    simp [oneRowState, Analyzers.mkRow]
  ⟨⟨hch, c7_delete_only_after_publish.1 pubAll true 0 ["a"] oneRowState "a" hch⟩,
   ⟨by simp, rfl, hrows,
    c7_delete_only_after_publish.2 pubNone true 0 ["a"] oneRowState "a"
      (by simp) rfl hrows⟩⟩

end Analyzer
